import Mathlib

/-
Verification of the SenseLink connection controllers (DataController.py).

The file shallowly embeds the two lifecycle managers of the repository:
HASSController (websocket client, lines 26-119) and MQTTController
(broker client, lines 122-212).  Pure dispatch logic is translated to
Lean functions; the mutable class-level registries of the MQTT side are
threaded through an explicit state record; network and scheduler events
appear as explicit inputs.  Inbound payloads are modelled as decoded
JSON values, with the undecodable case kept separate.
-/

/- JSON values, as produced by json.loads.  Numbers are restricted to
integers, which covers every id and every frame the controllers
inspect.  Python None and JSON null are both JValue.null. -/
inductive JValue where
  | null
  | bool (b : Bool)
  | num (n : Int)
  | str (s : String)
  | arr (xs : List JValue)
  | obj (fields : List (String × JValue))

/- Errors the embedded code can raise. -/
inductive PyErr where
  | jsonDecodeError
  | keyError (k : String)
  | typeError
  | mqttError
  deriving Repr, DecidableEq

/- Python truthiness of a decoded JSON value. -/
def truthy : JValue → Bool
  | JValue.null => false
  | JValue.bool b => b
  | JValue.num n => n != 0
  | JValue.str s => !s.isEmpty
  | JValue.arr xs => !xs.isEmpty
  | JValue.obj fs => !fs.isEmpty

def startsWithChars : List Char → List Char → Bool
  | [], _ => true
  | _ :: _, [] => false
  | a :: as, b :: bs => a == b && startsWithChars as bs

def hasSubChars (needle : List Char) : List Char → Bool
  | [] => startsWithChars needle []
  | b :: bs => startsWithChars needle (b :: bs) || hasSubChars needle bs

/- Python membership test, k in m, for a decoded JSON value m: key
membership for dicts, element equality for lists (a JSON element equals
the string k only when it is that string), substring test for strings,
TypeError otherwise. -/
def pyContains (m : JValue) (k : String) : Except PyErr Bool :=
  match m with
  | JValue.obj fs => Except.ok (fs.any fun p => p.1 == k)
  | JValue.arr xs => Except.ok (xs.any fun v =>
      match v with
      | JValue.str s => s == k
      | _ => false)
  | JValue.str s => Except.ok (hasSubChars k.data s.data)
  | _ => Except.error PyErr.typeError

/- Python subscription m[k] with a string key: dict lookup raising
KeyError when absent, TypeError on values that do not support string
subscription. -/
def getItem (m : JValue) (k : String) : Except PyErr JValue :=
  match m with
  | JValue.obj fs =>
    match fs.find? (fun p => p.1 == k) with
    | some p => Except.ok p.2
    | none => Except.error (PyErr.keyError k)
  | _ => Except.error PyErr.typeError

/- Python dict.get(k): the stored value, or None when the key is
absent.  A stored JSON null and an absent key are indistinguishable,
exactly as in the source, which only tests the result against None. -/
def dictGet (m : JValue) (k : String) : Except PyErr JValue :=
  match m with
  | JValue.obj fs => Except.ok (((fs.find? (fun p => p.1 == k)).map Prod.snd).getD JValue.null)
  | _ => Except.error PyErr.typeError

def isNone : JValue → Bool
  | JValue.null => true
  | _ => false

/- Python iteration over a decoded JSON value: list elements, dict
keys, the characters of a string; TypeError otherwise. -/
def pyIter : JValue → Except PyErr (List JValue)
  | JValue.arr xs => Except.ok xs
  | JValue.obj fs => Except.ok (fs.map fun p => JValue.str p.1)
  | JValue.str s => Except.ok (s.data.map fun ch => JValue.str (String.mk [ch]))
  | _ => Except.error PyErr.typeError

/- Dict lookup without errors, used to model dpath traversal. -/
def objLookup : JValue → String → Option JValue
  | JValue.obj fs, k => (fs.find? (fun p => p.1 == k)).map Prod.snd
  | _, _ => none

/- safekey(message, event/data) from lines 18-23 at its only call site
(line 99): dpath.util.get over the fixed two-segment path, returning
None (here Option.none) when either dict key is missing or an
intermediate value is not a dict. -/
def safekey_event_data (m : JValue) : Option JValue :=
  (objLookup m "event").bind fun e => objLookup e "data"

/- Python equality of a decoded JSON value against an int literal.
Python treats bool as an int subtype, so True == 1 and False == 0. -/
def pyEqInt : JValue → Int → Bool
  | JValue.num n, m => n == m
  | JValue.bool b, m => (if b then (1 : Int) else 0) == m
  | _, _ => false

/- Python equality of a decoded JSON value against a string literal. -/
def pyEqStr : JValue → String → Bool
  | JValue.str s, t => s == t
  | _, _ => false

/- HASSController (lines 26-34).  The class attributes event_rq_id and
bulk_rq_id are fixed at class creation and never shadowed; they are the
two reserved request ids.  data_sources is the externally populated
registry, modelled as the list of data-source identities in
registration order. -/
structure HASSController where
  url : String
  auth_token : String
  data_sources : List Nat

def HASSController.event_rq_id : Int := 1

def HASSController.bulk_rq_id : Int := 2

/- Observable actions of on_message: frames written to the websocket,
log records by severity, and the two data-source callbacks.  A callback
effect names the data source (by its registry entry) and the argument
passed to it. -/
inductive Effect where
  | send (m : JValue)
  | logInfo
  | logError
  | logDebug
  | parseIncremental (ds : Nat) (data : JValue)
  | parseBulk (ds : Nat) (record : JValue)

/- The auth reply sent on auth_required (line 69). -/
def auth_response (token : String) : JValue :=
  JValue.obj [("type", JValue.str "auth"), ("access_token", JValue.str token)]

/- The event-subscription request sent on auth_ok (lines 79-83). -/
def events_command : JValue :=
  JValue.obj [("id", JValue.num HASSController.event_rq_id),
    ("type", JValue.str "subscribe_events"),
    ("event_type", JValue.str "state_changed")]

/- The bulk-snapshot request sent on auth_ok (lines 88-91). -/
def states_command : JValue :=
  JValue.obj [("id", JValue.num HASSController.bulk_rq_id),
    ("type", JValue.str "get_states")]

/- Lines 95-103: the branch taken when the frame has a type key and its
id equals event_rq_id.  The debug log at line 97 precedes the safekey
guard; the guard returns early when event/data is missing or falsy;
otherwise the value at message event data (identical to the safekey
result for dict-shaped frames) is handed to every data source in
registration order. -/
def handleEvent (c : HASSController) (m : JValue) : Except PyErr (List Effect) :=
  match safekey_event_data m with
  | none => Except.ok [Effect.logDebug]
  | some v =>
    if truthy v then
      Except.ok (Effect.logDebug :: c.data_sources.map fun d => Effect.parseIncremental d v)
    else
      Except.ok [Effect.logDebug]

/- The nested loop of lines 114-117: for every record, every data
source is invoked once, records outermost. -/
def bulkEffects (dss : List Nat) : List JValue → List Effect
  | [] => []
  | item :: rest => (dss.map fun d => Effect.parseBulk d item) ++ bulkEffects dss rest

/- Lines 105-117: the branch taken when the frame has a type key and
its id equals bulk_rq_id.  The info log at line 107 precedes the None
test on message.get(result); a None result returns early; otherwise
the records are iterated with the nested dispatch loop. -/
def handleBulk (c : HASSController) (m : JValue) : Except PyErr (List Effect) :=
  match dictGet m "result" with
  | Except.error e => Except.error e
  | Except.ok r =>
    if isNone r then
      Except.ok [Effect.logInfo]
    else
      match pyIter r with
      | Except.error e => Except.error e
      | Except.ok records =>
        Except.ok (Effect.logInfo :: Effect.logDebug :: bulkEffects c.data_sources records)

/- Branches 4, 5 and the final else of on_message (lines 95-119).  Both
id branches re-test the presence of the type key (true on this path)
and then subscript message with id, so a frame that reaches this point
without an id key raises KeyError (line 95). -/
def dispatchById (c : HASSController) (m : JValue) : Except PyErr (List Effect) :=
  match getItem m "id" with
  | Except.error e => Except.error e
  | Except.ok idv =>
    if pyEqInt idv HASSController.event_rq_id then
      handleEvent c m
    else if pyEqInt idv HASSController.bulk_rq_id then
      handleBulk c m
    else
      Except.ok [Effect.logDebug]

/- on_message (lines 63-119).  The raw websocket text is modelled by
its decode result: none stands for text json.loads rejects, in which
case JSONDecodeError propagates to the caller (line 65).  Every branch
of the if/elif chain requires the frame to contain a type key; a frame
without one falls to the final else and is only logged at debug
severity.  Sends performed inside the branches are recorded as
effects; a send failure would raise ConnectionClosed at the call site
of on_message and is outside this function. -/
def on_message (c : HASSController) (raw : Option JValue) : Except PyErr (List Effect) :=
  match raw with
  | none => Except.error PyErr.jsonDecodeError
  | some m =>
    match pyContains m "type" with
    | Except.error e => Except.error e
    | Except.ok false => Except.ok [Effect.logDebug]
    | Except.ok true =>
      match getItem m "type" with
      | Except.error e => Except.error e
      | Except.ok t =>
        if pyEqStr t "auth_required" then
          Except.ok [Effect.logInfo, Effect.send (auth_response c.auth_token)]
        else if pyEqStr t "auth_invalid" then
          Except.ok [Effect.logError]
        else if pyEqStr t "auth_ok" then
          Except.ok [Effect.logInfo, Effect.send events_command, Effect.logInfo,
            Effect.send states_command, Effect.logInfo]
        else
          dispatchById c m

/- Projections of an on_message result onto each class of effect. -/
def incFromEffects : List Effect → List (Nat × JValue)
  | [] => []
  | Effect.parseIncremental d v :: rest => (d, v) :: incFromEffects rest
  | _ :: rest => incFromEffects rest

def bulkFromEffects : List Effect → List (Nat × JValue)
  | [] => []
  | Effect.parseBulk d v :: rest => (d, v) :: bulkFromEffects rest
  | _ :: rest => bulkFromEffects rest

def sendFromEffects : List Effect → List JValue
  | [] => []
  | Effect.send m :: rest => m :: sendFromEffects rest
  | _ :: rest => sendFromEffects rest

def incrementalCalls (r : Except PyErr (List Effect)) : List (Nat × JValue) :=
  match r with
  | Except.ok effs => incFromEffects effs
  | Except.error _ => []

def bulkCalls (r : Except PyErr (List Effect)) : List (Nat × JValue) :=
  match r with
  | Except.ok effs => bulkFromEffects effs
  | Except.error _ => []

def sentMessages (r : Except PyErr (List Effect)) : List JValue :=
  match r with
  | Except.ok effs => sendFromEffects effs
  | Except.error _ => []

/- The per-record per-source dispatch pattern, used to state what the
bulk branch delivers. -/
def bulkPairs (dss : List Nat) : List JValue → List (Nat × JValue)
  | [] => []
  | item :: rest => (dss.map fun d => (d, item)) ++ bulkPairs dss rest

/- ----------------------------------------------------------------- -/
/- MQTT side (lines 122-212).                                        -/
/- ----------------------------------------------------------------- -/

/- An entry of the MQTTTopic.handlers list.  The list normally holds
handler callables (identified by a Nat), but line 183 appends
ds_hl.handlers, which is the very same list object, so the list can
also contain a reference to itself. -/
inductive HandlerEntry where
  | handler (h : Nat)
  | listRef
  deriving Repr, DecidableEq

/- An MQTTTopic instance (lines 122-130).  __init__ stores only the
topic string on the instance; the handlers attribute is never assigned
on an instance, so attribute lookup always resolves to the single
class-level list. -/
structure MQTTTopicInst where
  topic : String
  deriving Repr, DecidableEq

inductive TaskStatus where
  | running
  | done
  | cancelled
  deriving Repr, DecidableEq

/- A listener task created at line 195: the handler it runs, the topic
of the filtered stream it consumes, and its scheduling status. -/
structure SpawnedTask where
  handler : Nat
  streamTopic : String
  status : TaskStatus
  deriving Repr, DecidableEq

/- The mutable registries of the MQTT side.  All three are class-level
attributes: MQTTTopic.handlers (line 123), MQTTController.topics
(line 138, an insertion-ordered dict keyed by topic string, stored
here as a list of instances with distinct topics) and
MQTTController.tasks (line 139).  None of them is ever re-created, so
they persist across sessions and across instances. -/
structure MQTTState where
  classHandlers : List HandlerEntry
  topics : List MQTTTopicInst
  tasks : List SpawnedTask
  deriving Repr, DecidableEq

/- The state at class-definition time. -/
def initState : MQTTState := { classHandlers := [], topics := [], tasks := [] }

/- MQTTTopic.__init__ (lines 125-127): self.handlers.append(handler)
mutates the class-level list shared by every instance. -/
def MQTTTopic.init (topic : String) (h : Nat) (st : MQTTState) :
    MQTTTopicInst × MQTTState :=
  (⟨topic⟩, { st with classHandlers := st.classHandlers ++ [HandlerEntry.handler h] })

/- Reading the handlers attribute of an instance: the instance dict is
always empty, so the lookup falls through to the class attribute,
independent of which instance is asked. -/
def MQTTTopicInst.handlersAttr (_self : MQTTTopicInst) (st : MQTTState) : List HandlerEntry :=
  st.classHandlers

/- Modelled from the spec: the data sources themselves are not under
src (only DataController.py is); per the spec each data source exposes
handlers(), invoked once per session, returning its declared
(topic, handler) pairs.  The call site (lines 174-186) reads .topic
and .handlers off each returned element, so a declaration materialises
as one MQTTTopic instance per pair, constructed when handlers() runs. -/
def dsHandlers (decls : List (String × Nat)) (st : MQTTState) :
    List MQTTTopicInst × MQTTState :=
  match decls with
  | [] => ([], st)
  | (t, h) :: rest =>
    let (inst, st1) := MQTTTopic.init t h st
    let (insts, st2) := dsHandlers rest st1
    (inst :: insts, st2)

/- Lines 179-186: register one returned MQTTTopic.  If the topic is
already a key of the topics dict, line 183 runs
topic.handlers.append(ds_hl.handlers); both attribute reads resolve to
the one class-level list, so the list is appended to itself.
Otherwise the instance is stored as a new dict entry. -/
def registerHandler (inst : MQTTTopicInst) (st : MQTTState) : MQTTState :=
  if st.topics.any (fun i => i.topic == inst.topic) then
    { st with classHandlers := st.classHandlers ++ [HandlerEntry.listRef] }
  else
    { st with topics := st.topics ++ [inst] }

def registerAll (insts : List MQTTTopicInst) (st : MQTTState) : MQTTState :=
  insts.foldl (fun s i => registerHandler i s) st

/- Lines 172-186: the per-session assembly loop over all registered
data sources. -/
def assembleSession (dss : List (List (String × Nat))) (st : MQTTState) : MQTTState :=
  match dss with
  | [] => st
  | decls :: rest =>
    let (insts, st1) := dsHandlers decls st
    assembleSession rest (registerAll insts st1)

/- Lines 194-196 for one topic: for hl in topic.handlers, create a
task running hl(messages) on the filtered stream of that topic.  When
hl is the self-referential list entry, the call hl(messages) raises
TypeError, because a list is not callable; tasks created before that
point remain in the task set. -/
def spawnForEntries (topicName : String) (entries : List HandlerEntry) (st : MQTTState) :
    Except PyErr Unit × MQTTState :=
  match entries with
  | [] => (Except.ok (), st)
  | HandlerEntry.handler h :: rest =>
    spawnForEntries topicName rest
      { st with tasks := st.tasks ++ [⟨h, topicName, TaskStatus.running⟩] }
  | HandlerEntry.listRef :: _ => (Except.error PyErr.typeError, st)

/- Lines 188-196: iterate the topics dict in insertion order; every
topic reads the same class-level handlers list. -/
def spawnTasks (topicList : List MQTTTopicInst) (st : MQTTState) :
    Except PyErr Unit × MQTTState :=
  match topicList with
  | [] => (Except.ok (), st)
  | inst :: rest =>
    match spawnForEntries inst.topic st.classHandlers st with
    | (Except.ok _, st1) => spawnTasks rest st1
    | (Except.error e, st1) => (Except.error e, st1)

/- cancel_tasks body (lines 204-212): skip finished tasks, cancel the
rest and await each one, suppressing the expected CancelledError, so
every non-finished task ends cancelled. -/
def cancel_tasks_body (tasks : List SpawnedTask) : List SpawnedTask :=
  tasks.map fun t => if t.status = TaskStatus.done then t else { t with status := TaskStatus.cancelled }

/- Line 165 registers the teardown with
stack.push_async_callback(self.cancel_tasks, self.tasks): on unwind
the stack calls cancel_tasks with one positional argument. -/
def teardown_call_arg_count : Nat := 1

/- Line 204 declares async def cancel_tasks(self): the bound method
accepts zero positional arguments. -/
def cancel_tasks_positional_params : Nat := 0

/- The teardown invocation performed by the exit stack on every
session exit.  When the supplied argument count does not match the
parameter count of cancel_tasks, the call itself raises TypeError
before the body can run, leaving the task set untouched. -/
def run_teardown (tasks : List SpawnedTask) : Except PyErr Unit × List SpawnedTask :=
  if teardown_call_arg_count = cancel_tasks_positional_params then
    (Except.ok (), cancel_tasks_body tasks)
  else
    (Except.error PyErr.typeError, tasks)

/- Outcomes of the external awaits inside listen: entering the broker
client context (line 169), the subscribe call (line 199) and the
gather over the listener tasks (line 202).  A field of none means the
await completed without raising.  Sessions in which gather never
completes never leave listen and never reach teardown; listen below
describes the sessions that do exit. -/
structure ListenExternals where
  connectFail : Option PyErr
  subscribeFail : Option PyErr
  gatherFail : Option PyErr

/- Unwinding the AsyncExitStack at the end of listen, with an optional
pending exception from the body.  The teardown callback registered at
line 165 runs first; when it raises, its exception replaces the
pending one and propagates out of listen. -/
def unwindStack (pending : Option PyErr) (st : MQTTState) : Except PyErr Unit × MQTTState :=
  match run_teardown st.tasks with
  | (Except.ok _, ts) =>
    match pending with
    | some e => (Except.error e, { st with tasks := ts })
    | none => (Except.ok (), { st with tasks := ts })
  | (Except.error e2, ts) => (Except.error e2, { st with tasks := ts })

/- listen (lines 162-202) for one session.  The teardown callback is
pushed before anything can fail, so it runs on every exit path.  The
mutations of the class-level registries performed before an exception
survive it, which the returned state records. -/
def MQTTController.listen (dss : List (List (String × Nat))) (ext : ListenExternals) (st : MQTTState) :
    Except PyErr Unit × MQTTState :=
  match ext.connectFail with
  | some e => unwindStack (some e) st
  | none =>
    let st1 := assembleSession dss st
    match spawnTasks st1.topics st1 with
    | (Except.error e, st2) => unwindStack (some e) st2
    | (Except.ok _, st2) =>
      match ext.subscribeFail with
      | some e => unwindStack (some e) st2
      | none =>
        match ext.gatherFail with
        | some e => unwindStack (some e) st2
        | none => unwindStack none st2

/- One iteration of the supervising loop of client_handler
(lines 151-160): await listen; catch only MqttError; in both cases the
finally clause sleeps reconnect_interval; an uncaught exception then
terminates the while-loop and the handler task. -/
inductive LoopStep where
  | continueAfterSleep (delaySec : Nat)
  | crashedAfterSleep (delaySec : Nat) (e : PyErr)
  deriving Repr, DecidableEq

def reconnect_interval : Nat := 5

def mqtt_client_handler_step (dss : List (List (String × Nat))) (ext : ListenExternals)
    (st : MQTTState) : LoopStep × MQTTState :=
  match MQTTController.listen dss ext st with
  | (Except.error e, st1) =>
    if e = PyErr.mqttError then (LoopStep.continueAfterSleep reconnect_interval, st1)
    else (LoopStep.crashedAfterSleep reconnect_interval e, st1)
  | (Except.ok _, st1) => (LoopStep.continueAfterSleep reconnect_interval, st1)

/- ----------------------------------------------------------------- -/
/- HASS client_handler (lines 40-61).                                -/
/- ----------------------------------------------------------------- -/

/- Result of the websockets.connect attempt: wsError stands for the
WebSocketException or gaierror cases of line 57. -/
inductive HassConnect where
  | ok
  | wsError
  deriving Repr, DecidableEq

/- One event observed by the recv loop: a received payload (given by
its decode result) or a ConnectionClosed raised by recv. -/
inductive HassEvent where
  | frame (raw : Option JValue)
  | closed

/- How one run of client_handler ends.  rescheduled d: a transport
failure was caught, the handler slept d seconds and scheduled a fresh
client_handler task (lines 51-56 and 57-61).  crashed e: an exception
raised by on_message matched neither except clause and escaped,
killing the handler task with no reconnection.  awaitingRecv: every
supplied event was processed and the loop is blocked on recv. -/
inductive HassOutcome where
  | rescheduled (delaySec : Nat)
  | crashed (e : PyErr)
  | awaitingRecv

def hassLoop (c : HASSController) : List HassEvent → List Effect → HassOutcome × List Effect
  | [], effs => (HassOutcome.awaitingRecv, effs)
  | HassEvent.closed :: _, effs => (HassOutcome.rescheduled 10, effs)
  | HassEvent.frame raw :: rest, effs =>
    match on_message c raw with
    | Except.ok es => hassLoop c rest (effs ++ es)
    | Except.error e => (HassOutcome.crashed e, effs)

def hass_client_handler (c : HASSController) (conn : HassConnect) (events : List HassEvent) :
    HassOutcome × List Effect :=
  match conn with
  | HassConnect.wsError => (HassOutcome.rescheduled 10, [])
  | HassConnect.ok => hassLoop c events []

/- ----------------------------------------------------------------- -/
/- Helper lemmas.                                                    -/
/- ----------------------------------------------------------------- -/

lemma any_key_of_getItem {fs : List (String × JValue)} {k : String} {v : JValue}
    (h : getItem (JValue.obj fs) k = Except.ok v) :
    (fs.any fun p => p.1 == k) = true := by
  unfold getItem at h
  cases hf : fs.find? (fun p => p.1 == k) with
  | none => simp [hf] at h
  | some p =>
    have hp := List.find?_some hf
    have hm := List.mem_of_find?_eq_some hf
    exact List.any_eq_true.mpr ⟨p, hm, hp⟩

/- With a type key present whose value is none of the three auth
types, on_message reduces to the id dispatch of lines 95-119. -/
lemma on_message_nonauth (c : HASSController) (fs : List (String × JValue)) (t : JValue)
    (hty : getItem (JValue.obj fs) "type" = Except.ok t)
    (hna1 : pyEqStr t "auth_required" = false)
    (hna2 : pyEqStr t "auth_invalid" = false)
    (hna3 : pyEqStr t "auth_ok" = false) :
    on_message c (some (JValue.obj fs)) = dispatchById c (JValue.obj fs) := by
  have hkey : (fs.any fun p => p.1 == "type") = true := any_key_of_getItem hty
  simp [on_message, pyContains, hkey, hty, hna1, hna2, hna3]

lemma incFromEffects_map_parse (dss : List Nat) (v : JValue) :
    incFromEffects (dss.map fun d => Effect.parseIncremental d v) = dss.map fun d => (d, v) := by
  induction dss with
  | nil => rfl
  | cons d rest ih => simp [incFromEffects, ih]

lemma bulkFromEffects_append (l1 l2 : List Effect) :
    bulkFromEffects (l1 ++ l2) = bulkFromEffects l1 ++ bulkFromEffects l2 := by
  induction l1 with
  | nil => rfl
  | cons e rest ih => cases e <;> simp [bulkFromEffects, ih]

lemma bulkFromEffects_map_parse (dss : List Nat) (v : JValue) :
    bulkFromEffects (dss.map fun d => Effect.parseBulk d v) = dss.map fun d => (d, v) := by
  induction dss with
  | nil => rfl
  | cons d rest ih => simp [bulkFromEffects, ih]

lemma bulkFromEffects_bulkEffects (dss : List Nat) (recs : List JValue) :
    bulkFromEffects (bulkEffects dss recs) = bulkPairs dss recs := by
  induction recs with
  | nil => rfl
  | cons x rest ih =>
    simp [bulkEffects, bulkPairs, bulkFromEffects_append, bulkFromEffects_map_parse, ih]

lemma bulkPairs_length (dss : List Nat) (recs : List JValue) :
    (bulkPairs dss recs).length = recs.length * dss.length := by
  induction recs with
  | nil => simp [bulkPairs]
  | cons x rest ih => simp [bulkPairs, ih, Nat.succ_mul, Nat.add_comm]

lemma unwindStack_raises (pending : Option PyErr) (st : MQTTState) :
    unwindStack pending st = (Except.error PyErr.typeError, st) := rfl

/- ----------------------------------------------------------------- -/
/- Claim theorems.                                                   -/
/- ----------------------------------------------------------------- -/

/-- C1 counterexample.  The claim asserts that every inbound frame
whose id equals the reserved event-subscription id and whose nested
field event.data is present is delivered to every registered data
source.  The concrete frame below has id 1 and a present, non-empty
event.data, and the controller has one registered data source, yet
on_message only logs it at debug severity and invokes no data source,
because the frame carries no type key and every non-auth branch of
lines 95-117 requires one. -/
theorem incremental_claim_counterexample :
    incrementalCalls (on_message ⟨"u", "tok", [0]⟩
        (some (JValue.obj [("id", JValue.num 1),
          ("event", JValue.obj [("data", JValue.obj [("entity_id", JValue.str "a")])])]))) = []
    ∧ incrementalCalls (on_message ⟨"u", "tok", [0]⟩
        (some (JValue.obj [("id", JValue.num 1),
          ("event", JValue.obj [("data", JValue.obj [("entity_id", JValue.str "a")])])]))) ≠
        [(0, JValue.obj [("entity_id", JValue.str "a")])]
    ∧ on_message ⟨"u", "tok", [0]⟩
        (some (JValue.obj [("id", JValue.num 1),
          ("event", JValue.obj [("data", JValue.obj [("entity_id", JValue.str "a")])])])) =
        Except.ok [Effect.logDebug] :=
  ⟨rfl, fun h => (List.cons_ne_nil _ _) h.symm, rfl⟩

/-- C1 (amended).  For every inbound frame that contains a type key
whose value is none of the three auth types and whose id equals the
reserved event-subscription id: when event.data is present and truthy,
on_message invokes parse_incremental_update(data) on every registered
data source exactly once, in registration order; when event.data is
absent, or present but falsy, no data source is invoked. -/
theorem incremental_dispatch_amended (c : HASSController) (fs : List (String × JValue))
    (t idv : JValue)
    (hty : getItem (JValue.obj fs) "type" = Except.ok t)
    (hna1 : pyEqStr t "auth_required" = false)
    (hna2 : pyEqStr t "auth_invalid" = false)
    (hna3 : pyEqStr t "auth_ok" = false)
    (hid : getItem (JValue.obj fs) "id" = Except.ok idv)
    (hev : pyEqInt idv HASSController.event_rq_id = true) :
    (∀ v, safekey_event_data (JValue.obj fs) = some v → truthy v = true →
      incrementalCalls (on_message c (some (JValue.obj fs))) =
        c.data_sources.map fun d => (d, v))
    ∧ (safekey_event_data (JValue.obj fs) = none →
      incrementalCalls (on_message c (some (JValue.obj fs))) = [])
    ∧ (∀ v, safekey_event_data (JValue.obj fs) = some v → truthy v = false →
      incrementalCalls (on_message c (some (JValue.obj fs))) = []) := by
  have hred := on_message_nonauth c fs t hty hna1 hna2 hna3
  refine ⟨?_, ?_, ?_⟩
  · intro v hsk htr
    rw [hred]
    simp [dispatchById, hid, hev, handleEvent, hsk, htr, incrementalCalls,
      incFromEffects, incFromEffects_map_parse]
  · intro hsk
    rw [hred]
    simp [dispatchById, hid, hev, handleEvent, hsk, incrementalCalls, incFromEffects]
  · intro v hsk htr
    rw [hred]
    simp [dispatchById, hid, hev, handleEvent, hsk, htr, incrementalCalls, incFromEffects]

/-- C1 witness.  The amended dispatch evaluated on a concrete frame of
type event with id 1 and event.data containing one entity: the single
registered data source receives exactly that data. -/
theorem incremental_dispatch_amended_witness :
    incrementalCalls (on_message ⟨"u", "tok", [0]⟩
        (some (JValue.obj [("id", JValue.num 1), ("type", JValue.str "event"),
          ("event", JValue.obj [("data", JValue.obj [("entity_id", JValue.str "a")])])]))) =
      [(0, JValue.obj [("entity_id", JValue.str "a")])] :=
  (incremental_dispatch_amended ⟨"u", "tok", [0]⟩
      [("id", JValue.num 1), ("type", JValue.str "event"),
        ("event", JValue.obj [("data", JValue.obj [("entity_id", JValue.str "a")])])]
      (JValue.str "event") (JValue.num 1) rfl rfl rfl rfl rfl rfl).1
    (JValue.obj [("entity_id", JValue.str "a")]) rfl rfl

/-- C2 counterexample.  The claim asserts that every inbound frame
whose id equals the reserved bulk-snapshot id and whose field result
is a non-null sequence of N records yields N parse_bulk_update calls
per data source.  The concrete frame below has id 2 and a one-record
result, and the controller has one registered data source, yet
on_message only logs it at debug severity and performs zero bulk
calls, because the frame carries no type key. -/
theorem bulk_claim_counterexample :
    bulkCalls (on_message ⟨"u", "tok", [0]⟩
        (some (JValue.obj [("id", JValue.num 2),
          ("result", JValue.arr [JValue.obj [("entity_id", JValue.str "a"),
            ("state", JValue.str "on")]])]))) = []
    ∧ bulkCalls (on_message ⟨"u", "tok", [0]⟩
        (some (JValue.obj [("id", JValue.num 2),
          ("result", JValue.arr [JValue.obj [("entity_id", JValue.str "a"),
            ("state", JValue.str "on")]])]))) ≠
        [(0, JValue.obj [("entity_id", JValue.str "a"), ("state", JValue.str "on")])]
    ∧ on_message ⟨"u", "tok", [0]⟩
        (some (JValue.obj [("id", JValue.num 2),
          ("result", JValue.arr [JValue.obj [("entity_id", JValue.str "a"),
            ("state", JValue.str "on")]])])) = Except.ok [Effect.logDebug] :=
  ⟨rfl, fun h => (List.cons_ne_nil _ _) h.symm, rfl⟩

/-- C2 (amended).  For every inbound frame that contains a type key
whose value is none of the three auth types and whose id equals the
reserved bulk-snapshot id: when the result field is null or absent,
zero parse_bulk_update invocations occur; when result is a sequence of
N records, every data source is invoked once per record with records
in order, N times per data source in total. -/
theorem bulk_dispatch_amended (c : HASSController) (fs : List (String × JValue))
    (t idv r : JValue)
    (hty : getItem (JValue.obj fs) "type" = Except.ok t)
    (hna1 : pyEqStr t "auth_required" = false)
    (hna2 : pyEqStr t "auth_invalid" = false)
    (hna3 : pyEqStr t "auth_ok" = false)
    (hid : getItem (JValue.obj fs) "id" = Except.ok idv)
    (hev : pyEqInt idv HASSController.event_rq_id = false)
    (hblk : pyEqInt idv HASSController.bulk_rq_id = true)
    (hres : dictGet (JValue.obj fs) "result" = Except.ok r) :
    (isNone r = true → bulkCalls (on_message c (some (JValue.obj fs))) = [])
    ∧ (∀ recs, r = JValue.arr recs →
      bulkCalls (on_message c (some (JValue.obj fs))) = bulkPairs c.data_sources recs)
    ∧ (∀ recs, r = JValue.arr recs →
      (bulkCalls (on_message c (some (JValue.obj fs)))).length =
        recs.length * c.data_sources.length) := by
  have hred := on_message_nonauth c fs t hty hna1 hna2 hna3
  have harr : ∀ recs, r = JValue.arr recs →
      bulkCalls (on_message c (some (JValue.obj fs))) = bulkPairs c.data_sources recs := by
    intro recs hr
    subst hr
    rw [hred]
    simp [dispatchById, hid, hev, hblk, handleBulk, hres, isNone, pyIter, bulkCalls,
      bulkFromEffects, bulkFromEffects_bulkEffects]
  refine ⟨?_, harr, ?_⟩
  · intro hnone
    rw [hred]
    have hrn : r = JValue.null := by cases r <;> simp [isNone] at hnone ⊢
    subst hrn
    simp [dispatchById, hid, hev, hblk, handleBulk, hres, isNone, bulkCalls, bulkFromEffects]
  · intro recs hr
    rw [harr recs hr, bulkPairs_length]

/-- C2 witness.  The amended bulk dispatch on a concrete frame of type
result with id 2 and two records, delivered to two data sources: each
source receives both records, in record order, two calls per source. -/
theorem bulk_dispatch_amended_witness :
    bulkCalls (on_message ⟨"u", "tok", [0, 1]⟩
        (some (JValue.obj [("id", JValue.num 2), ("type", JValue.str "result"),
          ("result", JValue.arr [JValue.str "r1", JValue.str "r2"])]))) =
      [(0, JValue.str "r1"), (1, JValue.str "r1"), (0, JValue.str "r2"), (1, JValue.str "r2")] :=
  (bulk_dispatch_amended ⟨"u", "tok", [0, 1]⟩
      [("id", JValue.num 2), ("type", JValue.str "result"),
        ("result", JValue.arr [JValue.str "r1", JValue.str "r2"])]
      (JValue.str "result") (JValue.num 2) (JValue.arr [JValue.str "r1", JValue.str "r2"])
      rfl rfl rfl rfl rfl rfl rfl rfl).2.1
    [JValue.str "r1", JValue.str "r2"] rfl

/-- C3.  Receiving the frame of type auth_ok makes on_message send
exactly two outbound requests, in order: first the event-subscription
request tagged with the reserved event id, then the snapshot request
tagged with the reserved bulk id; the two requests are distinct, and a
session consisting of auth_required followed by auth_ok sends exactly
the auth reply and then those two requests. -/
theorem auth_ok_two_requests (c : HASSController) :
    sentMessages (on_message c (some (JValue.obj [("type", JValue.str "auth_ok")]))) =
      [events_command, states_command]
    ∧ events_command ≠ states_command
    ∧ objLookup events_command "id" = some (JValue.num HASSController.event_rq_id)
    ∧ objLookup states_command "id" = some (JValue.num HASSController.bulk_rq_id)
    ∧ sendFromEffects (hass_client_handler c HassConnect.ok
        [HassEvent.frame (some (JValue.obj [("type", JValue.str "auth_required")])),
         HassEvent.frame (some (JValue.obj [("type", JValue.str "auth_ok")]))]).2 =
      [auth_response c.auth_token, events_command, states_command] := by
  refine ⟨rfl, ?_, rfl, rfl, rfl⟩
  intro h
  simp [events_command, states_command] at h

/-- C4.  The claim says the teardown registered on the exit stack
cancels every still-running tracked task and awaits each cancellation.
In the code, push_async_callback supplies self.tasks as a positional
argument, while cancel_tasks accepts none, so on every session exit
the teardown call raises TypeError and leaves every task exactly as it
was: no task is cancelled or awaited. -/
theorem teardown_typeerror_eval :
    ∀ tasks : List SpawnedTask,
      run_teardown tasks = (Except.error PyErr.typeError, tasks) :=
  fun _ => rfl

/-- C5.  The claim says two data sources declaring one handler each
for the same topic T yield one registration for T whose handler list
is exactly those two handlers, one subscription and two listener tasks
over the stream for T.  Evaluating one session over exactly that input
shows: the single registration for T ends with a handler list holding
the two handlers plus the shared list itself (the class-level list was
appended to itself), two tasks are created, and the session then
raises TypeError while trying to start a task for the self-referential
entry, before any subscribe call. -/
theorem duplicate_topic_session_eval :
    (MQTTController.listen [[("T", 1)], [("T", 2)]] ⟨none, none, none⟩ initState).1 =
      Except.error PyErr.typeError
    ∧ (MQTTController.listen [[("T", 1)], [("T", 2)]] ⟨none, none, none⟩ initState).2.topics = [⟨"T"⟩]
    ∧ (MQTTController.listen [[("T", 1)], [("T", 2)]] ⟨none, none, none⟩ initState).2.classHandlers =
      [HandlerEntry.handler 1, HandlerEntry.handler 2, HandlerEntry.listRef]
    ∧ (MQTTController.listen [[("T", 1)], [("T", 2)]] ⟨none, none, none⟩ initState).2.classHandlers ≠
      [HandlerEntry.handler 1, HandlerEntry.handler 2]
    ∧ (MQTTController.listen [[("T", 1)], [("T", 2)]] ⟨none, none, none⟩ initState).2.tasks =
      [⟨1, "T", TaskStatus.running⟩, ⟨2, "T", TaskStatus.running⟩] := by
  refine ⟨rfl, rfl, rfl, ?_, rfl⟩
  decide

/-- C6.  The websocket half of the claim holds: every connect failure
and every mid-session ConnectionClosed makes client_handler sleep the
fixed 10 seconds and schedule a fresh attempt, with the same constant
delay every time.  The MQTT half fails: on every exiting session,
listen raises TypeError out of the teardown callback, the except
clause of client_handler catches only MqttError, so the supervising
loop sleeps its 5-second interval once and then terminates instead of
reconnecting indefinitely. -/
theorem retry_policy_eval :
    (∀ (c : HASSController) (evs : List HassEvent),
      (hass_client_handler c HassConnect.wsError evs).1 = HassOutcome.rescheduled 10)
    ∧ (∀ (c : HASSController) (rest : List HassEvent),
      (hass_client_handler c HassConnect.ok (HassEvent.closed :: rest)).1 =
        HassOutcome.rescheduled 10)
    ∧ (∀ (dss : List (List (String × Nat))) (ext : ListenExternals) (st : MQTTState),
      (mqtt_client_handler_step dss ext st).1 =
        LoopStep.crashedAfterSleep reconnect_interval PyErr.typeError) := by
  refine ⟨fun c evs => rfl, fun c rest => rfl, ?_⟩
  intro dss ext st
  unfold mqtt_client_handler_step MQTTController.listen
  rcases ext with ⟨cf, sf, gf⟩
  cases cf with
  | some e => simp [unwindStack_raises]
  | none =>
    rcases hsp : spawnTasks (assembleSession dss st).topics (assembleSession dss st) with ⟨r, st2⟩
    cases r <;> cases sf <;> cases gf <;> simp [hsp, unwindStack_raises]

/-- C7.  The claim says the topic-registration map is rebuilt each
session and discarded at session end, with each declared handler
appearing exactly once.  Evaluating two consecutive sessions with one
data source declaring the pair (T, handler 1) shows the class-level
map survives the first session end, and the second session both
re-appends the same handler to the shared list and appends the list to
itself, so the second session sees the handler twice plus the
self-reference, and the task set has grown to three entries. -/
theorem topics_persist_across_sessions_eval :
    (MQTTController.listen [[("T", 1)]] ⟨none, none, some PyErr.mqttError⟩ initState).2.topics = [⟨"T"⟩]
    ∧ (MQTTController.listen [[("T", 1)]] ⟨none, none, some PyErr.mqttError⟩ initState).2.classHandlers =
      [HandlerEntry.handler 1]
    ∧ (MQTTController.listen [[("T", 1)]] ⟨none, none, some PyErr.mqttError⟩
        (MQTTController.listen [[("T", 1)]] ⟨none, none, some PyErr.mqttError⟩ initState).2).2.classHandlers =
      [HandlerEntry.handler 1, HandlerEntry.handler 1, HandlerEntry.listRef]
    ∧ (MQTTController.listen [[("T", 1)]] ⟨none, none, some PyErr.mqttError⟩
        (MQTTController.listen [[("T", 1)]] ⟨none, none, some PyErr.mqttError⟩ initState).2).2.topics = [⟨"T"⟩]
    ∧ ((MQTTController.listen [[("T", 1)]] ⟨none, none, some PyErr.mqttError⟩
        (MQTTController.listen [[("T", 1)]] ⟨none, none, some PyErr.mqttError⟩ initState).2).2.tasks).length = 3 :=
  ⟨rfl, rfl, rfl, rfl, rfl⟩

/-- C8.  The claim says a malformed payload is treated as a transport
error with a reconnect after the fixed delay.  Evaluating a connected
session whose first received payload does not decode shows what the
code does instead: json.loads raises JSONDecodeError, which matches
neither the ConnectionClosed nor the WebSocketException/gaierror
except clauses, so the handler task crashes and no reconnection is
scheduled. -/
theorem malformed_payload_crash_eval :
    ∀ c : HASSController,
      hass_client_handler c HassConnect.ok [HassEvent.frame none] =
        (HassOutcome.crashed PyErr.jsonDecodeError, []) :=
  fun _ => rfl

/-- C9 counterexample.  The claim asserts that every decoded frame
whose type is none of the auth types and whose id matches neither
reserved id returns normally with only a low-severity log.  The
concrete frame of type pong carries no id key at all, so its id
matches neither reserved id, yet on_message raises KeyError instead
of returning: line 95 subscripts the frame with id after checking
only for the type key. -/
theorem other_frame_keyerror_counterexample :
    on_message ⟨"u", "tok", [0]⟩ (some (JValue.obj [("type", JValue.str "pong")])) =
      Except.error (PyErr.keyError "id")
    ∧ ∀ es, on_message ⟨"u", "tok", [0]⟩ (some (JValue.obj [("type", JValue.str "pong")])) ≠
      Except.ok es :=
  ⟨rfl, fun _ h => Except.noConfusion h⟩

/-- C9 (amended).  Matching of non-auth frames depends on the presence
of a type key together with the numeric id, not on the id alone: a
frame without a type key is ignored with a single debug log whatever
its id; a frame whose type is none of the auth types and which carries
an id key matching neither reserved id is ignored with a single debug
log, sending nothing and invoking no data source; and a frame whose
type is none of the auth types but which lacks an id key raises
KeyError instead of returning normally. -/
theorem other_frame_ignored_amended (c : HASSController) (fs : List (String × JValue)) :
    (pyContains (JValue.obj fs) "type" = Except.ok false →
      on_message c (some (JValue.obj fs)) = Except.ok [Effect.logDebug])
    ∧ (∀ t idv, getItem (JValue.obj fs) "type" = Except.ok t →
      pyEqStr t "auth_required" = false → pyEqStr t "auth_invalid" = false →
      pyEqStr t "auth_ok" = false →
      getItem (JValue.obj fs) "id" = Except.ok idv →
      pyEqInt idv HASSController.event_rq_id = false →
      pyEqInt idv HASSController.bulk_rq_id = false →
      on_message c (some (JValue.obj fs)) = Except.ok [Effect.logDebug])
    ∧ (∀ t, getItem (JValue.obj fs) "type" = Except.ok t →
      pyEqStr t "auth_required" = false → pyEqStr t "auth_invalid" = false →
      pyEqStr t "auth_ok" = false →
      getItem (JValue.obj fs) "id" = Except.error (PyErr.keyError "id") →
      on_message c (some (JValue.obj fs)) = Except.error (PyErr.keyError "id")) := by
  refine ⟨?_, ?_, ?_⟩
  · intro hnone
    have h : (fs.any fun p => p.1 == "type") = false := by
      simpa [pyContains] using hnone
    simp [on_message, pyContains, h]
  · intro t idv hty hna1 hna2 hna3 hid hev hblk
    rw [on_message_nonauth c fs t hty hna1 hna2 hna3]
    simp [dispatchById, hid, hev, hblk]
  · intro t hty hna1 hna2 hna3 hid
    rw [on_message_nonauth c fs t hty hna1 hna2 hna3]
    simp [dispatchById, hid]

/-- C9 witness.  The amended statement evaluated on a concrete frame
of type pong with id 99: on_message returns normally with one debug
log and nothing else. -/
theorem other_frame_ignored_amended_witness :
    on_message ⟨"u", "tok", [0]⟩
        (some (JValue.obj [("type", JValue.str "pong"), ("id", JValue.num 99)])) =
      Except.ok [Effect.logDebug] :=
  (other_frame_ignored_amended ⟨"u", "tok", [0]⟩
      [("type", JValue.str "pong"), ("id", JValue.num 99)]).2.1
    (JValue.str "pong") (JValue.num 99) rfl rfl rfl rfl rfl rfl rfl

/-- C10.  All MQTTTopic instances share the single class-level
handlers list: constructing MQTTTopic t1 h1 and then MQTTTopic t2 h2,
for any topics t1 and t2, leaves both instances with the same handlers
attribute, the shared list now holding h1 followed by h2, so a handler
registered for one topic appears in the handler list of every topic. -/
theorem mqtttopic_shared_handlers :
    ∀ (t1 t2 : String) (h1 h2 : Nat),
      ((MQTTTopic.init t1 h1 initState).1.handlersAttr
          (MQTTTopic.init t2 h2 (MQTTTopic.init t1 h1 initState).2).2 =
        (MQTTTopic.init t2 h2 (MQTTTopic.init t1 h1 initState).2).1.handlersAttr
          (MQTTTopic.init t2 h2 (MQTTTopic.init t1 h1 initState).2).2)
      ∧ (MQTTTopic.init t1 h1 initState).1.handlersAttr
          (MQTTTopic.init t2 h2 (MQTTTopic.init t1 h1 initState).2).2 =
        [HandlerEntry.handler h1, HandlerEntry.handler h2] :=
  fun _ _ _ _ => ⟨rfl, rfl⟩
